import Mathlib

/-!
Shallow embedding of the Teseo HAL device orchestrator
(`src/device/AbstractDevice.cpp`) together with the parts of the
`Location` model (`libteseo.model/include/teseo/model/Location.h`) and the
upstream proxy surface (`libteseo.core/include/teseo/LocServiceProxy.h`)
that the orchestrator uses.

Modelling conventions:
- C++ `double`/`float` field values are never computed with by this code
  (they are only stored and read back), so they are embedded as `Int`.
- `GpsUtcTime` (an `int64_t`) is embedded as `Int`.
- Raw pointers (`stream::IStream *`, `decoder::IDecoder *`) are embedded as
  `Option Nat`: `none` is `nullptr`, `some p` is a non-null pointer with
  identity `p`.
- External side effects (wake lock calls, UTC time requests, decoder and
  stream lifecycle calls, bus publishes, ALOG logging) are recorded in an
  `Effect` trace, in program order.
- A dereference of a null pointer (the source has no guard in `start` and
  `stop`) is a crash: the operation result is `none`, and the trace holds
  exactly the effects performed before the faulting dereference.
-/

/-- Tags for the ALOG messages emitted by `AbstractDevice.cpp`
(`ALOGI("Start navigation")`, `ALOGI("Stop navigation")`,
`ALOGE("Stream isn_t set, won_t connect.")`,
`ALOGE("Decoder isn_t set, won_t connect.")`,
`ALOGW("Setting stream to nullptr")`,
`ALOGW("Setting decoder to nullptr")`). -/
inductive LogMsg where
  | startNav
  | stopNav
  | streamNotSet
  | decoderNotSet
  | settingStreamToNull
  | settingDecoderToNull
  deriving DecidableEq, Repr

/-- The GNSS fix snapshot of `teseo/model/Location.h`: per-field values with
independent validity flags, plus a timestamp. Field names follow the
header (`_latitude`, `hasLatLong`, ...). -/
structure Location where
  _latitude : Int
  _longitude : Int
  hasLatLong : Bool
  _altitude : Int
  hasAltitude : Bool
  _speed : Int
  hasSpeed : Bool
  _bearing : Int
  hasBearing : Bool
  _accuracy : Int
  hasAccuracy : Bool
  _timestamp : Int
  deriving DecidableEq, Repr

/-- Modelled from the spec: `Location::locationValidity` has only its
declaration under `src/` (Location.cpp is absent). The spec states the
whole-fix validity predicate requires latitude/longitude validity, so it is
the `hasLatLong` flag. -/
def Location.locationValidity (l : Location) : Bool :=
  l.hasLatLong

/-- Modelled from the spec: `Location::altitudeValidity` body is absent from
`src/`; it reads the altitude validity flag. -/
def Location.altitudeValidity (l : Location) : Bool :=
  l.hasAltitude

/-- Modelled from the spec: `Location::speedValidity` body is absent from
`src/`; it reads the speed validity flag. -/
def Location.speedValidity (l : Location) : Bool :=
  l.hasSpeed

/-- Modelled from the spec: `Location::bearingValidity` body is absent from
`src/`; it reads the bearing validity flag. -/
def Location.bearingValidity (l : Location) : Bool :=
  l.hasBearing

/-- Modelled from the spec: `Location::accuracyValidity` body is absent from
`src/`; it reads the accuracy validity flag. -/
def Location.accuracyValidity (l : Location) : Bool :=
  l.hasAccuracy

/-- Modelled from the spec: `Location::invalidateLocation` body is absent
from `src/`; invalidation is explicit and field-granular, so it clears the
latitude/longitude validity flag and nothing else. -/
def Location.invalidateLocation (l : Location) : Location :=
  { l with hasLatLong := false }

/-- Modelled from the spec: `Location::invalidateAltitude` body is absent
from `src/`; it clears the altitude validity flag and nothing else. -/
def Location.invalidateAltitude (l : Location) : Location :=
  { l with hasAltitude := false }

/-- Modelled from the spec: `Location::invalidateSpeed` body is absent from
`src/`; it clears the speed validity flag and nothing else. -/
def Location.invalidateSpeed (l : Location) : Location :=
  { l with hasSpeed := false }

/-- Modelled from the spec: `Location::invalidateBearing` body is absent
from `src/`; it clears the bearing validity flag and nothing else. -/
def Location.invalidateBearing (l : Location) : Location :=
  { l with hasBearing := false }

/-- Modelled from the spec: `Location::invalidateAccuracy` body is absent
from `src/`; it clears the accuracy validity flag and nothing else. -/
def Location.invalidateAccuracy (l : Location) : Location :=
  { l with hasAccuracy := false }

/-- Modelled from the spec: the `Location::timestamp(GpsUtcTime value)`
setter body is absent from `src/`; it stores the timestamp (the timestamp
has no validity flag: it is always considered set). The source setter also
returns the stored value, which no caller in `src/` uses. -/
def Location.timestamp (l : Location) (value : Int) : Location :=
  { l with _timestamp := value }

/-- An NMEA sentence (`teseo/model/NmeaMessage.h`, not under `src/`): per
the spec, an immutable text payload plus its originating timestamp. -/
structure NmeaMessage where
  text : String
  timestamp : Int
  deriving DecidableEq, Repr

/-- One externally observable side effect of the orchestrator, in program
order. Wake lock, UTC request and the two publishes are the
`LocServiceProxy::gps` calls; decoder/stream lifecycle effects carry the
pointer identity of the object they were invoked on; logging is ALOG. -/
inductive Effect where
  | logInfo (m : LogMsg)
  | logWarning (m : LogMsg)
  | logError (m : LogMsg)
  | acquireWakelock
  | releaseWakelock
  | requestUtcTime
  | decoderStart (p : Nat)
  | decoderStop (p : Nat)
  | streamStartReading (p : Nat)
  | streamStopReading (p : Nat)
  | connect (streamPtr decoderPtr : Nat)
  | sendLocationUpdate (loc : Location)
  | sendNmea (timestamp : Int) (nmea : NmeaMessage)
  deriving DecidableEq, Repr

/-- Whether an effect is an ALOG logging call (a non-functional diagnostic
effect, distinguished from the external resource and bus effects). -/
def Effect.isLog : Effect → Bool
  | .logInfo _ => true
  | .logWarning _ => true
  | .logError _ => true
  | _ => false

/-- The member state of `stm::device::AbstractDevice`: the borrowed stream
and decoder pointers, the in-progress fix `location`, and the device
timestamp. -/
structure AbstractDevice where
  stream : Option Nat
  decoder : Option Nat
  location : Location
  timestamp : Int
  deriving DecidableEq, Repr

/-- `AbstractDevice::connectStreamToDecoder`: if the stream is null, log an
error and return; if the decoder is null, log an error and return;
otherwise connect the stream new-bytes signal to the decoder onNewBytes
slot. The function is total (it never raises). -/
def AbstractDevice.connectStreamToDecoder (d : AbstractDevice) : List Effect :=
  match d.stream with
  | none => [.logError .streamNotSet]
  | some st =>
    match d.decoder with
    | none => [.logError .decoderNotSet]
    | some dec => [.connect st dec]

/-- `AbstractDevice::setStream`: warns when the argument is null, then
unconditionally stores it. -/
def AbstractDevice.setStream (d : AbstractDevice) (s : Option Nat) :
    AbstractDevice × List Effect :=
  ({ d with stream := s },
   match s with
   | none => [.logWarning .settingStreamToNull]
   | some _ => [])

/-- `AbstractDevice::setDecoder`: warns when the argument is null, then
unconditionally stores it. -/
def AbstractDevice.setDecoder (d : AbstractDevice) (dec : Option Nat) :
    AbstractDevice × List Effect :=
  ({ d with decoder := dec },
   match dec with
   | none => [.logWarning .settingDecoderToNull]
   | some _ => [])

/-- `AbstractDevice::update`: publishes the in-progress fix on the
locationUpdate signal iff `location.locationValidity()`; the body writes no
member, so the device is returned unchanged. -/
def AbstractDevice.update (d : AbstractDevice) : AbstractDevice × List Effect :=
  (d, if d.location.locationValidity then [.sendLocationUpdate d.location] else [])

/-- `AbstractDevice::start`: logs, acquires the wake lock, requests UTC
time, then calls `decoder->start()` and `stream->startReading()` with no
null guard and returns 0. A null decoder or stream is a crash (`none`)
at the faulting dereference, after the effects already performed. -/
def AbstractDevice.start (d : AbstractDevice) : List Effect × Option Int :=
  match d.decoder with
  | none => ([.logInfo .startNav, .acquireWakelock, .requestUtcTime], none)
  | some dec =>
    match d.stream with
    | none => ([.logInfo .startNav, .acquireWakelock, .requestUtcTime,
                .decoderStart dec], none)
    | some st => ([.logInfo .startNav, .acquireWakelock, .requestUtcTime,
                   .decoderStart dec, .streamStartReading st], some 0)

/-- `AbstractDevice::stop`: logs, then calls `stream->stopReading()`,
`decoder->stop()`, releases the wake lock and returns 0, with no null
guard and no state check. A null stream or decoder is a crash (`none`)
at the faulting dereference, after the effects already performed. -/
def AbstractDevice.stop (d : AbstractDevice) : List Effect × Option Int :=
  match d.stream with
  | none => ([.logInfo .stopNav], none)
  | some st =>
    match d.decoder with
    | none => ([.logInfo .stopNav, .streamStopReading st], none)
    | some dec => ([.logInfo .stopNav, .streamStopReading st, .decoderStop dec,
                    .releaseWakelock], some 0)

/-- `AbstractDevice::setTimestamp`: stores the timestamp in the device
member and in the in-progress fix. -/
def AbstractDevice.setTimestamp (d : AbstractDevice) (t : Int) : AbstractDevice :=
  { d with timestamp := t, location := d.location.timestamp t }

/-- `AbstractDevice::invalidateLocation`: delegates to the fix. -/
def AbstractDevice.invalidateLocation (d : AbstractDevice) : AbstractDevice :=
  { d with location := d.location.invalidateLocation }

/-- `AbstractDevice::invalidateAltitude`: delegates to the fix. -/
def AbstractDevice.invalidateAltitude (d : AbstractDevice) : AbstractDevice :=
  { d with location := d.location.invalidateAltitude }

/-- `AbstractDevice::invalidateSpeed`: delegates to the fix. -/
def AbstractDevice.invalidateSpeed (d : AbstractDevice) : AbstractDevice :=
  { d with location := d.location.invalidateSpeed }

/-- `AbstractDevice::invalidateBearing`: delegates to the fix. -/
def AbstractDevice.invalidateBearing (d : AbstractDevice) : AbstractDevice :=
  { d with location := d.location.invalidateBearing }

/-- `AbstractDevice::invalidateAccuracy`: delegates to the fix. -/
def AbstractDevice.invalidateAccuracy (d : AbstractDevice) : AbstractDevice :=
  { d with location := d.location.invalidateAccuracy }

/-- `AbstractDevice::emitNmea`: publishes the sentence on the onNmea
signal, timestamped with the device timestamp member (not with the
timestamp carried inside the message). -/
def AbstractDevice.emitNmea (d : AbstractDevice) (nmea : NmeaMessage) : List Effect :=
  [.sendNmea d.timestamp nmea]

/-- A fix with every validity flag cleared and all values zero. -/
def locInvalid : Location :=
  { _latitude := 0, _longitude := 0, hasLatLong := false,
    _altitude := 0, hasAltitude := false,
    _speed := 0, hasSpeed := false,
    _bearing := 0, hasBearing := false,
    _accuracy := 0, hasAccuracy := false,
    _timestamp := 0 }

/-- A partial fix: speed, bearing and accuracy valid, latitude/longitude
invalid. -/
def locPartial : Location :=
  { locInvalid with
    _speed := 5, hasSpeed := true,
    _bearing := 90, hasBearing := true,
    _accuracy := 3, hasAccuracy := true }

/-- A fix with valid latitude/longitude. -/
def locValid : Location :=
  { locInvalid with _latitude := 48, _longitude := 11, hasLatLong := true }

/-- An orchestrator with neither stream nor decoder attached (the state
right after the constructor runs, which sets both members to nullptr). -/
def devNull : AbstractDevice :=
  { stream := none, decoder := none, location := locInvalid, timestamp := 0 }

/-- An orchestrator with a stream (pointer identity 1) and a decoder
(pointer identity 2) attached, holding a valid fix. -/
def devFull : AbstractDevice :=
  { stream := some 1, decoder := some 2, location := locValid, timestamp := 42 }

/-- An orchestrator holding the partial fix `locPartial`. -/
def devPartialFix : AbstractDevice :=
  { devFull with location := locPartial }

/-- Claim C1, counterexample: with neither stream nor decoder attached,
`start` does not return a failure code — it crashes on the null decoder
dereference (result `none`, never a `some r` with `r` nonzero) — and it
does perform side effects first: the wake lock is acquired and the UTC
time request is issued before the faulting dereference. -/
theorem start_missing_prerequisite_cex :
    (AbstractDevice.start devNull).2 = none ∧
    (AbstractDevice.start devNull).1 ≠ [] ∧
    Effect.acquireWakelock ∈ (AbstractDevice.start devNull).1 ∧
    Effect.requestUtcTime ∈ (AbstractDevice.start devNull).1 := by
  decide

/-- Claim C1, amended: `start` performs no prerequisite check. When both
stream and decoder are attached it returns the success code 0; when the
decoder is missing it crashes after logging, acquiring the wake lock and
requesting UTC time; when only the stream is missing it crashes after
additionally starting the decoder. -/
theorem start_no_prerequisite_check (d : AbstractDevice) :
    (∀ st dec, d.stream = some st → d.decoder = some dec →
      (d.start).2 = some 0) ∧
    (d.decoder = none →
      (d.start).1 = [.logInfo .startNav, .acquireWakelock, .requestUtcTime] ∧
      (d.start).2 = none) ∧
    (∀ dec, d.decoder = some dec → d.stream = none →
      (d.start).1 = [.logInfo .startNav, .acquireWakelock, .requestUtcTime,
                     .decoderStart dec] ∧
      (d.start).2 = none) := by
  refine ⟨?_, ?_, ?_⟩
  · intro st dec hs hd
    simp [AbstractDevice.start, hs, hd]
  · intro hd
    simp [AbstractDevice.start, hd]
  · intro dec hd hs
    simp [AbstractDevice.start, hs, hd]

/-- Claim C1, witness: the amended statement applied to the concrete
devices `devFull` (both attached: success code 0) and `devNull` (no
decoder: crash). -/
theorem start_no_prerequisite_check_witness :
    (AbstractDevice.start devFull).2 = some 0 ∧
    (AbstractDevice.start devNull).2 = none :=
  ⟨(start_no_prerequisite_check devFull).1 1 2 rfl rfl,
   ((start_no_prerequisite_check devNull).2.1 rfl).2⟩

/-- Claim C3, counterexample: `devFull` is also the orchestrator state
after a successful `start` (`start` writes no member), i.e. a Navigating
device. A second `start` on it returns the success code 0 — not a failure
code — and acquires the wake lock and starts the decoder and stream a
second time. Moreover `stop` on an Idle device (`devFull` before any
start) is not a no-op: it stops the stream and decoder and releases the
wake lock. -/
theorem double_start_idle_stop_cex :
    (AbstractDevice.start devFull).2 = some 0 ∧
    Effect.acquireWakelock ∈ (AbstractDevice.start devFull).1 ∧
    Effect.decoderStart 2 ∈ (AbstractDevice.start devFull).1 ∧
    Effect.streamStartReading 1 ∈ (AbstractDevice.start devFull).1 ∧
    Effect.streamStopReading 1 ∈ (AbstractDevice.stop devFull).1 ∧
    Effect.decoderStop 2 ∈ (AbstractDevice.stop devFull).1 ∧
    Effect.releaseWakelock ∈ (AbstractDevice.stop devFull).1 := by
  decide

/-- Claim C3, amended: the orchestrator keeps no Idle/Navigating state and
guards neither operation. With both pointers attached — regardless of
whether the device is Idle or already Navigating — `stop` returns success
and always performs the stream-stop, decoder-stop and wake-lock-release
effects (not a no-op), and `start` returns the success code 0 and always
re-acquires the wake lock and re-starts the decoder and stream
(duplicate resource acquisition); avoiding duplicates is left to callers. -/
theorem start_stop_unguarded (d : AbstractDevice) (st dec : Nat)
    (hs : d.stream = some st) (hd : d.decoder = some dec) :
    (d.stop).2 = some 0 ∧
    (d.stop).1.filter (fun e => !e.isLog) =
      [.streamStopReading st, .decoderStop dec, .releaseWakelock] ∧
    (d.start).2 = some 0 ∧
    (d.start).1.filter (fun e => !e.isLog) =
      [.acquireWakelock, .requestUtcTime, .decoderStart dec,
       .streamStartReading st] := by
  refine ⟨?_, ?_, ?_, ?_⟩ <;>
    simp [AbstractDevice.start, AbstractDevice.stop, hs, hd,
          List.filter, Effect.isLog]

/-- Claim C3, witness: the amended statement applied to `devFull`. -/
theorem start_stop_unguarded_witness :
    (AbstractDevice.stop devFull).2 = some 0 ∧
    (AbstractDevice.start devFull).2 = some 0 :=
  ⟨(start_stop_unguarded devFull 1 2 rfl rfl).1,
   (start_stop_unguarded devFull 1 2 rfl rfl).2.2.1⟩

/-- Claim C2: `update` publishes the in-progress fix iff
`locationValidity` holds (valid latitude/longitude); a fix whose lat/long
validity flag is false is never published, whatever the other validity
flags hold, and the device — in particular the retained fix — is
unchanged. -/
theorem update_gated_on_locationValidity (d : AbstractDevice) :
    ((d.update).1 = d) ∧
    (d.location.hasLatLong = true →
      (d.update).2 = [.sendLocationUpdate d.location]) ∧
    (d.location.hasLatLong = false → (d.update).2 = []) := by
  refine ⟨rfl, ?_, ?_⟩ <;>
    · intro h
      simp [AbstractDevice.update, Location.locationValidity, h]

/-- Claim C2, witness: applied to `devPartialFix`, whose fix has valid
speed, bearing and accuracy but invalid latitude/longitude — nothing is
published and the fix is retained — and to `devFull`, whose fix has valid
latitude/longitude — it is published. -/
theorem update_gated_on_locationValidity_witness :
    (AbstractDevice.update devPartialFix).2 = [] ∧
    (AbstractDevice.update devPartialFix).1 = devPartialFix ∧
    devPartialFix.location.hasSpeed = true ∧
    (AbstractDevice.update devFull).2 =
      [Effect.sendLocationUpdate devFull.location] :=
  ⟨(update_gated_on_locationValidity devPartialFix).2.2 rfl,
   (update_gated_on_locationValidity devPartialFix).1,
   rfl,
   (update_gated_on_locationValidity devFull).2.1 rfl⟩

/-- Claim C4: on a successful `start` (stream and decoder attached), the
non-logging side effects occur in exactly this order: acquire the wake
lock, request UTC time, start the decoder, start the stream reading; and
the returned code is the success code 0. -/
theorem start_effect_order (d : AbstractDevice) (st dec : Nat)
    (hs : d.stream = some st) (hd : d.decoder = some dec) :
    (d.start).1.filter (fun e => !e.isLog) =
      [.acquireWakelock, .requestUtcTime, .decoderStart dec,
       .streamStartReading st] ∧
    (d.start).2 = some 0 := by
  constructor <;>
    simp [AbstractDevice.start, hs, hd, List.filter, Effect.isLog]

/-- Claim C4, witness: the effect order on the concrete device `devFull`. -/
theorem start_effect_order_witness :
    (AbstractDevice.start devFull).1.filter (fun e => !e.isLog) =
      [.acquireWakelock, .requestUtcTime, .decoderStart 2,
       .streamStartReading 1] :=
  (start_effect_order devFull 1 2 rfl rfl).1

/-- Claim C5: on `stop` with stream and decoder attached (as they are in
any Navigating state, since a completed `start` dereferenced both), the
non-logging side effects occur in exactly this order: stop the stream
reading, stop the decoder, release the wake lock; and `stop` returns the
success code 0. -/
theorem stop_effect_order (d : AbstractDevice) (st dec : Nat)
    (hs : d.stream = some st) (hd : d.decoder = some dec) :
    (d.stop).1.filter (fun e => !e.isLog) =
      [.streamStopReading st, .decoderStop dec, .releaseWakelock] ∧
    (d.stop).2 = some 0 := by
  constructor <;>
    simp [AbstractDevice.stop, hs, hd, List.filter, Effect.isLog]

/-- Claim C5, witness: the effect order on the concrete device `devFull`. -/
theorem stop_effect_order_witness :
    (AbstractDevice.stop devFull).1.filter (fun e => !e.isLog) =
      [.streamStopReading 1, .decoderStop 2, .releaseWakelock] ∧
    (AbstractDevice.stop devFull).2 = some 0 :=
  stop_effect_order devFull 1 2 rfl rfl

/-- Claim C6: `connectStreamToDecoder` with an unset stream or decoder only
logs an error and aborts — it is a total function (never raises) and
establishes no connection; with both set, it connects the stream
new-bytes event to the decoder onNewBytes handler and does nothing else. -/
theorem connectStreamToDecoder_guarded (d : AbstractDevice) :
    (d.stream = none →
      d.connectStreamToDecoder = [.logError .streamNotSet]) ∧
    (∀ st, d.stream = some st → d.decoder = none →
      d.connectStreamToDecoder = [.logError .decoderNotSet]) ∧
    (∀ st dec, d.stream = some st → d.decoder = some dec →
      d.connectStreamToDecoder = [.connect st dec]) ∧
    ((d.stream = none ∨ d.decoder = none) →
      ∀ st dec, Effect.connect st dec ∉ d.connectStreamToDecoder) := by
  refine ⟨?_, ?_, ?_, ?_⟩
  · intro hs
    simp [AbstractDevice.connectStreamToDecoder, hs]
  · intro st hs hd
    simp [AbstractDevice.connectStreamToDecoder, hs, hd]
  · intro st dec hs hd
    simp [AbstractDevice.connectStreamToDecoder, hs, hd]
  · rintro (hs | hd) st dec <;>
      unfold AbstractDevice.connectStreamToDecoder
    · simp [hs]
    · cases hcase : d.stream <;> simp [hd]

/-- Claim C6, witness: on `devNull` (no stream) the call only logs and
connects nothing; on `devFull` it produces exactly the connection. -/
theorem connectStreamToDecoder_guarded_witness :
    (AbstractDevice.connectStreamToDecoder devNull =
      [Effect.logError LogMsg.streamNotSet]) ∧
    Effect.connect 1 2 ∉ AbstractDevice.connectStreamToDecoder devNull ∧
    AbstractDevice.connectStreamToDecoder devFull = [Effect.connect 1 2] :=
  ⟨(connectStreamToDecoder_guarded devNull).1 rfl,
   (connectStreamToDecoder_guarded devNull).2.2.2 (Or.inl rfl) 1 2,
   (connectStreamToDecoder_guarded devFull).2.2.1 1 2 rfl rfl⟩

/-- Claim C7: invalidating one field of a Location clears only that field
validity flag: every other validity flag, every stored value and the
timestamp are unchanged; and the orchestrator-level invalidate operations
replace the fix by the field-invalidated fix while leaving the stream,
decoder and timestamp members untouched. -/
theorem invalidate_field_independence (l : Location) (d : AbstractDevice) :
    (l.invalidateLocation =
      { l with hasLatLong := false }) ∧
    (l.invalidateAltitude =
      { l with hasAltitude := false }) ∧
    (l.invalidateSpeed =
      { l with hasSpeed := false }) ∧
    (l.invalidateBearing =
      { l with hasBearing := false }) ∧
    (l.invalidateAccuracy =
      { l with hasAccuracy := false }) ∧
    (l.invalidateAltitude.hasSpeed = l.hasSpeed ∧
     l.invalidateAltitude.hasLatLong = l.hasLatLong ∧
     l.invalidateAltitude.hasBearing = l.hasBearing ∧
     l.invalidateAltitude.hasAccuracy = l.hasAccuracy ∧
     l.invalidateAltitude._speed = l._speed ∧
     l.invalidateAltitude._timestamp = l._timestamp) ∧
    (d.invalidateLocation =
      { d with location := d.location.invalidateLocation }) ∧
    (d.invalidateAltitude =
      { d with location := d.location.invalidateAltitude }) ∧
    (d.invalidateSpeed =
      { d with location := d.location.invalidateSpeed }) ∧
    (d.invalidateBearing =
      { d with location := d.location.invalidateBearing }) ∧
    (d.invalidateAccuracy =
      { d with location := d.location.invalidateAccuracy }) :=
  ⟨rfl, rfl, rfl, rfl, rfl, ⟨rfl, rfl, rfl, rfl, rfl, rfl⟩,
   rfl, rfl, rfl, rfl, rfl⟩

/-- Claim C8: `emitNmea` publishes exactly one timestamped nmea-received
event, unconditionally: replacing the in-progress fix by any Location
whatsoever — complete, partial or fully invalid — yields the very same
publish, so the pass-through is not gated on fix completeness or
validity. -/
theorem emitNmea_unconditional (d : AbstractDevice) (nmea : NmeaMessage)
    (l : Location) :
    AbstractDevice.emitNmea { d with location := l } nmea =
      [.sendNmea d.timestamp nmea] ∧
    d.emitNmea nmea = [.sendNmea d.timestamp nmea] :=
  ⟨rfl, rfl⟩

/-- Claim C9: the attachment interface does not enforce the non-null
precondition that `start` and `stop` rely on. `setStream` and `setDecoder`
store their argument unconditionally — a null argument is stored too, with
only a warning logged — and `start` and `stop` complete without a null
dereference exactly when both stored pointers are non-null. -/
theorem attachment_unchecked_nulls (d : AbstractDevice)
    (s dec : Option Nat) :
    ((d.setStream s).1.stream = s) ∧
    ((d.setStream s).1.decoder = d.decoder) ∧
    ((d.setStream none).2 = [.logWarning .settingStreamToNull]) ∧
    ((d.setDecoder dec).1.decoder = dec) ∧
    ((d.setDecoder dec).1.stream = d.stream) ∧
    ((d.setDecoder none).2 = [.logWarning .settingDecoderToNull]) ∧
    ((d.start).2.isSome ↔ (d.stream ≠ none ∧ d.decoder ≠ none)) ∧
    ((d.stop).2.isSome ↔ (d.stream ≠ none ∧ d.decoder ≠ none)) := by
  refine ⟨rfl, rfl, rfl, rfl, rfl, rfl, ?_, ?_⟩ <;>
    cases hs : d.stream <;> cases hd : d.decoder <;>
      simp [AbstractDevice.start, AbstractDevice.stop, hs, hd]

/-- Claim C10: after `setTimestamp t`, the device timestamp member and the
in-progress fix timestamp both equal `t`; no other fix field or validity
flag and no other device member changes; and every subsequent `emitNmea`
publish carries `t` — not the timestamp carried inside the NMEA message
itself. -/
theorem setTimestamp_propagates (d : AbstractDevice) (t : Int)
    (nmea : NmeaMessage) :
    ((d.setTimestamp t).timestamp = t) ∧
    ((d.setTimestamp t).location._timestamp = t) ∧
    ((d.setTimestamp t).location =
      { d.location with _timestamp := t }) ∧
    ((d.setTimestamp t).stream = d.stream) ∧
    ((d.setTimestamp t).decoder = d.decoder) ∧
    ((d.setTimestamp t).emitNmea nmea = [.sendNmea t nmea]) :=
  ⟨rfl, rfl, rfl, rfl, rfl, rfl⟩

/-- Claim C9, witness: on the concrete device `devFull`, storing a null
stream succeeds (the null is stored), and the crash-freedom criterion for
`start` is exactly the non-nullness of both stored pointers. -/
theorem attachment_unchecked_nulls_witness :
    (AbstractDevice.setStream devFull none).1.stream = none ∧
    ((AbstractDevice.start devFull).2.isSome ↔
      (devFull.stream ≠ none ∧ devFull.decoder ≠ none)) :=
  ⟨(attachment_unchecked_nulls devFull none none).1,
   (attachment_unchecked_nulls devFull none none).2.2.2.2.2.2.1⟩
